import Mathlib

/-!
Verification of src/QRcode.py (a thin wrapper around the third-party
`qrcode` image library) against its natural-language specification.

The wrapper itself (class `QRCodeGenerator`, src/QRcode.py lines 3-39) is
embedded line by line.  The pieces of behaviour that live outside the
repository -- the `qrcode` encoder, the PIL image renderer and the
filesystem -- are modelled from the specification, as documented on the
corresponding definitions.
-/

set_option autoImplicit false

namespace QRGen

/-- Python exceptions that can surface from a `generate` call:
`DataOverflowError` from the encoder, `ValueError` from the renderer for a
bad colour specification, `OSError` from an unwritable output path, and
`NameError` raised by the interpreter for an undefined name. -/
inductive PyErr where
  | dataOverflow
  | valueError (msg : String)
  | osError (path : String)
  | nameError (n : String)
  deriving DecidableEq

/-- The configuration object held by a `QRCodeGenerator` instance
(src/QRcode.py lines 5-10).  Python attributes hold arbitrary values and in
particular could hold `None`, so every field is an `Option`. -/
structure QRCodeGenerator where
  size : Option Int
  border : Option Int
  fill_color : Option String
  back_color : Option String
  box_size : Option Int
  deriving DecidableEq

/-- `__init__` (src/QRcode.py lines 5-10): size 4, border 4, fill colour
black, background white, box size 10. -/
def QRCodeGenerator.init : QRCodeGenerator :=
  ⟨some 4, some 4, some "black", some "white", some 10⟩

/-- `set_properties` (src/QRcode.py lines 12-22).  Each keyword argument
defaults to `None` (here `none`); each field is assigned exactly when the
corresponding argument `is not None`, mirroring the five guards. -/
def set_properties (self : QRCodeGenerator) (size border : Option Int)
    (fill_color back_color : Option String) (box_size : Option Int) :
    QRCodeGenerator :=
  ⟨if size.isSome then size else self.size,
   if border.isSome then border else self.border,
   if fill_color.isSome then fill_color else self.fill_color,
   if back_color.isSome then back_color else self.back_color,
   if box_size.isSome then box_size else self.box_size⟩

/-- A keyword argument at a Python call site: either omitted, or given a
Python value (`given none` is an explicit `None`).  Python binds the
declared default `None` to an omitted keyword argument before the body of
`set_properties` runs. -/
inductive PyArg (α : Type) where
  | omitted
  | given (v : Option α)

/-- The value a `PyArg` is bound to at function entry: an omitted argument
is bound to the declared default `None`. -/
def PyArg.toVal {α : Type} : PyArg α → Option α
  | .omitted => none
  | .given v => v

/-- A call `gen.set_properties(...)` at the Python call-site level: binds
each argument (applying the `None` default for omitted ones) and runs the
body. -/
def set_properties_call (self : QRCodeGenerator) (size border : PyArg Int)
    (fill_color back_color : PyArg String) (box_size : PyArg Int) :
    QRCodeGenerator :=
  set_properties self size.toVal border.toVal fill_color.toVal
    back_color.toVal box_size.toVal

/-- All five configuration fields hold a (non-`None`) value. -/
def allFieldsSet (c : QRCodeGenerator) : Bool :=
  c.size.isSome && c.border.isSome && c.fill_color.isSome &&
    c.back_color.isSome && c.box_size.isSome

/-- `qrcode.constants.ERROR_CORRECT_H` (the library constant, value 2). -/
def ERROR_CORRECT_H : Nat := 2

/-- Modelled from the spec: data capacity (in bytes, byte mode) of a QR
symbol of each version 1..40 at error-correction level H, the standard
capacity table the wrapped encoder enforces ("payload cannot be encoded at
the configured version/error-correction combination"). -/
def capHTable : List Nat :=
  [7, 14, 24, 34, 44, 58, 64, 84, 98, 119, 137, 155, 177, 194, 220, 250,
   280, 310, 338, 382, 403, 439, 461, 511, 535, 593, 625, 658, 698, 742,
   790, 842, 898, 958, 983, 1051, 1093, 1139, 1219, 1273]

/-- Byte capacity of version `v` at level H (0 outside 1..40). -/
def capH (v : Nat) : Nat :=
  if 1 ≤ v ∧ v ≤ 40 then capHTable.getD (v - 1) 0 else 0

/-- Modelled from the spec: the third-party `qrcode.QRCode` encoder object
(not part of this repository).  It records the constructor parameters and
the accumulated payload. -/
structure QRCode where
  version : Option Int
  error_correction : Nat
  box_size : Option Int
  border : Option Int
  data_list : List String
  deriving DecidableEq

/-- `qrcode.QRCode(...)` as called on src/QRcode.py lines 25-30: version
from the configured size, error correction fixed to `ERROR_CORRECT_H`, box
size and border from the configuration, no payload yet. -/
def buildEncoder (self : QRCodeGenerator) : QRCode :=
  ⟨self.size, ERROR_CORRECT_H, self.box_size, self.border, []⟩

/-- `qr.add_data(data)` (line 32): appends the payload segment. -/
def QRCode.add_data (qr : QRCode) (data : String) : QRCode :=
  ⟨qr.version, qr.error_correction, qr.box_size, qr.border,
   qr.data_list ++ [data]⟩

/-- Total payload size in bytes (byte-mode encoding). -/
def QRCode.neededBytes (qr : QRCode) : Nat :=
  (qr.data_list.map String.utf8ByteSize).foldl (fun a b => a + b) 0

/-- Modelled from the spec: the encoder "auto-select[s] symbol sizing if
needed" -- it picks the smallest version, starting from the configured one,
whose level-H capacity fits the payload, and raises `DataOverflowError`
when no version up to 40 fits. -/
def QRCode.best_fit (qr : QRCode) : Except PyErr QRCode :=
  let start := (qr.version.getD 1).toNat
  match (List.range' start (41 - start)).find?
      (fun w => decide (qr.neededBytes ≤ capH w)) with
  | some w =>
      .ok ⟨some (w : Int), qr.error_correction, qr.box_size, qr.border,
        qr.data_list⟩
  | none => .error .dataOverflow

/-- Modelled from the spec: `qr.make(fit=True)` (line 33) runs the best-fit
search whenever `fit` is set (or no version is fixed); otherwise it keeps
the fixed version and raises `DataOverflowError` if the payload does not
fit it. -/
def QRCode.make (qr : QRCode) (fit : Bool) : Except PyErr QRCode :=
  if fit || qr.version.isNone then qr.best_fit
  else if qr.neededBytes ≤ capH ((qr.version.getD 1).toNat) then .ok qr
  else .error .dataOverflow

/-- Modelled from the spec: the ambient environment of a run -- which colour
specifications the renderer accepts and which output paths the filesystem
lets the process write. -/
structure Env where
  validColor : Option String → Bool
  writable : String → Bool

/-- The rendered raster image, determined entirely by the made encoder
state and the two colours ("renders to an image using configured
fill/background colors"). -/
structure QRImage where
  version : Option Int
  error_correction : Nat
  box_size : Option Int
  border : Option Int
  data_list : List String
  fill_color : Option String
  back_color : Option String
  deriving DecidableEq

/-- Modelled from the spec: `qr.make_image(fill_color=..., back_color=...)`
(line 35) renders the symbol with the two colours, raising `ValueError` on
an invalid colour specification. -/
def QRCode.make_image (env : Env) (qr : QRCode)
    (fill back : Option String) : Except PyErr QRImage :=
  if env.validColor fill && env.validColor back then
    .ok ⟨qr.version, qr.error_correction, qr.box_size, qr.border,
      qr.data_list, fill, back⟩
  else .error (.valueError "unknown color specifier")

/-- Modelled from the spec: `img.save(output_file)` (line 37) writes the
file, raising `OSError` when the path is not writable. -/
def QRImage.save (env : Env) (img : QRImage) (output_file : String) :
    Except PyErr Unit :=
  if env.writable output_file then .ok () else .error (.osError output_file)

deriving instance DecidableEq for Except

/-- Observable outcome of one `generate` call: the generator object after
the call, the file written (path and image) if any, and the value returned
or the exception raised. -/
structure GenResult where
  self : QRCodeGenerator
  saved : Option (String × QRImage)
  ret : Except PyErr String
  deriving DecidableEq

/-- `generate` (src/QRcode.py lines 24-39), translated statement by
statement.  Note line 39 evaluates `os.path.abspath(output_file)`, but the
module only imports `qrcode` and `PIL.Image` (lines 1-2): the name `os` is
undefined, so every call that reaches line 39 raises
`NameError: name 'os' is not defined` -- after the image file has already
been written on line 37. -/
def generate (env : Env) (self : QRCodeGenerator) (data : String)
    (output_file : String) : GenResult :=
  let qr := buildEncoder self
  let qr := qr.add_data data
  match qr.make true with
  | .error e => ⟨self, none, .error e⟩
  | .ok qr2 =>
    match qr2.make_image env self.fill_color self.back_color with
    | .error e => ⟨self, none, .error e⟩
    | .ok img =>
      match img.save env output_file with
      | .error e => ⟨self, none, .error e⟩
      | .ok _ => ⟨self, some (output_file, img), .error (.nameError "os")⟩

/-- The declared default of the `output_file` parameter (line 24). -/
def defaultOutputFile : String := "qrcode5.png"

/-- A call `generate(data)` with the output file omitted (line 24 binds the
default `"qrcode5.png"`). -/
def generateDefault (env : Env) (self : QRCodeGenerator) (data : String) :
    GenResult :=
  generate env self data defaultOutputFile

/-- An environment where every colour is accepted and every path is
writable. -/
def env0 : Env := ⟨fun _ => true, fun _ => true⟩

/-- An environment where no output path is writable. -/
def envReadOnly : Env := ⟨fun _ => true, fun _ => false⟩

/-- A 40-byte payload (40 ASCII characters, encoded in byte mode). -/
def payload40 : String := String.mk (List.replicate 40 'a')

/-- C3: a freshly constructed `QRCodeGenerator` has exactly the documented
defaults: version 4, border 4, fill "black", background "white",
box size 10. -/
theorem C3_defaults :
    QRCodeGenerator.init.size = some 4 ∧
    QRCodeGenerator.init.border = some 4 ∧
    QRCodeGenerator.init.fill_color = some "black" ∧
    QRCodeGenerator.init.back_color = some "white" ∧
    QRCodeGenerator.init.box_size = some 10 :=
  ⟨rfl, rfl, rfl, rfl, rfl⟩

/-- C4: `set_properties` takes each specified field (argument `some v`) to
exactly the supplied value and leaves each unspecified field (argument
`none`) exactly at its previous value, for every configuration and every
subset of the five fields; being a pure state transformer, it has no other
effect. -/
theorem C4_set_properties_frame (self : QRCodeGenerator)
    (size border : Option Int) (fill_color back_color : Option String)
    (box_size : Option Int) :
    (set_properties self size border fill_color back_color box_size).size
        = Option.or size self.size ∧
    (set_properties self size border fill_color back_color box_size).border
        = Option.or border self.border ∧
    (set_properties self size border fill_color back_color
        box_size).fill_color = Option.or fill_color self.fill_color ∧
    (set_properties self size border fill_color back_color
        box_size).back_color = Option.or back_color self.back_color ∧
    (set_properties self size border fill_color back_color
        box_size).box_size = Option.or box_size self.box_size := by
  cases size <;> cases border <;> cases fill_color <;> cases back_color <;>
    cases box_size <;> exact ⟨rfl, rfl, rfl, rfl, rfl⟩

/-- C5: the encoder constructed by every `generate` call carries the fixed
error-correction level `ERROR_CORRECT_H` regardless of configuration, and
takes version, border and box size from the current configuration
(`generate` builds its encoder as `buildEncoder self`). -/
theorem C5_error_correction_fixed (self : QRCodeGenerator) :
    (buildEncoder self).error_correction = ERROR_CORRECT_H ∧
    (buildEncoder self).version = self.size ∧
    (buildEncoder self).border = self.border ∧
    (buildEncoder self).box_size = self.box_size :=
  ⟨rfl, rfl, rfl, rfl⟩

/-- The first hit of `find?` on a contiguous range: it satisfies the
predicate, lies in the range, and nothing earlier in the range does. -/
theorem find?_range'_first {p : Nat → Bool} (n : Nat) :
    ∀ (s w : Nat), (List.range' s n).find? p = some w →
      s ≤ w ∧ w < s + n ∧ p w = true ∧
        ∀ u, s ≤ u → u < w → p u = false := by
  induction n with
  | zero =>
    intro s w h
    simp [List.range'] at h
  | succ n ih =>
    intro s w h
    rw [List.range'_succ] at h
    by_cases hp : p s = true
    · rw [List.find?_cons_of_pos _ hp] at h
      injection h with h2
      subst h2
      exact ⟨Nat.le_refl s, by omega, hp,
        fun u h1 h2 => absurd h2 (by omega)⟩
    · rw [List.find?_cons_of_neg _ hp] at h
      obtain ⟨h1, h2, h3, h4⟩ := ih (s + 1) w h
      refine ⟨by omega, by omega, h3, ?_⟩
      intro u hu1 hu2
      rcases Nat.eq_or_lt_of_le hu1 with he | hl
      · rw [Bool.not_eq_true] at hp
        rw [← he]
        exact hp
      · exact h4 u (by omega) hu2

/-- `generate` returns the generator object it was called on: no branch of
the body assigns to `self`. -/
theorem generate_self_eq (env : Env) (self : QRCodeGenerator)
    (data output_file : String) :
    (generate env self data output_file).self = self := by
  simp only [generate]
  repeat' split
  all_goals rfl

/-- Whenever `generate` writes a file, it writes it at the `output_file`
argument it was given. -/
theorem generate_saved_path (env : Env) (self : QRCodeGenerator)
    (data output_file : String) (entry : String × QRImage)
    (h : (generate env self data output_file).saved = some entry) :
    entry.1 = output_file := by
  simp only [generate] at h
  repeat' split at h
  all_goals simp_all
  all_goals rw [← h]

/-- C6: `generate` never mutates the configuration -- the generator object
after a call (and after two successive calls with different output paths)
is exactly the one before -- and a call made after a previous `generate`
behaves exactly like a fresh call on the same configuration and data. -/
theorem C6_generate_stateless (env : Env) (self : QRCodeGenerator)
    (data f1 f2 : String) :
    (generate env self data f1).self = self ∧
    (generate env self data f2).self = self ∧
    generate env (generate env self data f1).self data f2
      = generate env self data f2 :=
  ⟨generate_self_eq env self data f1, generate_self_eq env self data f2,
   by rw [generate_self_eq]⟩

/-- C7: all five configuration fields hold a non-`None` value at
construction, and every `set_properties` call preserves that invariant (a
partial update never nulls out an existing value). -/
theorem C7_fields_always_set :
    allFieldsSet QRCodeGenerator.init = true ∧
    ∀ (c : QRCodeGenerator) (size border : Option Int)
      (fill_color back_color : Option String) (box_size : Option Int),
      allFieldsSet c = true →
      allFieldsSet (set_properties c size border fill_color back_color
        box_size) = true := by
  refine ⟨rfl, ?_⟩
  intro c size border fill_color back_color box_size h
  cases size <;> cases border <;> cases fill_color <;> cases back_color <;>
    cases box_size <;> simp_all [allFieldsSet, set_properties]

/-- Witness for C7 at a concrete configuration and update. -/
theorem C7_fields_always_set_witness :
    allFieldsSet QRCodeGenerator.init = true ∧
    allFieldsSet (set_properties QRCodeGenerator.init (some 7) none none
      none none) = true :=
  ⟨rfl,
   C7_fields_always_set.2 QRCodeGenerator.init (some 7) none none none none
     rfl⟩

/-- C8: every error produced inside `generate` -- an encoding overflow from
`make`, a colour `ValueError` from `make_image`, an `OSError` from `save`
-- reaches the caller as exactly that error, with no file recorded as
written by a failing step downstream: the wrapper catches nothing and maps
no error to another. -/
theorem C8_errors_propagate (env : Env) (self : QRCodeGenerator)
    (data output_file : String) (e : PyErr) :
    (((buildEncoder self).add_data data).make true = .error e →
      (generate env self data output_file).ret = .error e ∧
      (generate env self data output_file).saved = none) ∧
    (∀ qr2, ((buildEncoder self).add_data data).make true = .ok qr2 →
      qr2.make_image env self.fill_color self.back_color = .error e →
      (generate env self data output_file).ret = .error e ∧
      (generate env self data output_file).saved = none) ∧
    (∀ qr2 img, ((buildEncoder self).add_data data).make true = .ok qr2 →
      qr2.make_image env self.fill_color self.back_color = .ok img →
      img.save env output_file = .error e →
      (generate env self data output_file).ret = .error e ∧
      (generate env self data output_file).saved = none) := by
  refine ⟨?_, ?_, ?_⟩
  · intro h
    simp [generate, h]
  · intro qr2 h1 h2
    simp [generate, h1, h2]
  · intro qr2 img h1 h2 h3
    simp [generate, h1, h2, h3]

/-- Witness for C8: on a read-only filesystem the `OSError` from `save`
reaches the caller unmodified. -/
theorem C8_errors_propagate_witness :
    (((buildEncoder QRCodeGenerator.init).add_data "hello").make true
      = .ok ⟨some 4, ERROR_CORRECT_H, some 10, some 4, ["hello"]⟩) ∧
    ((⟨some 4, ERROR_CORRECT_H, some 10, some 4, ["hello"]⟩ :
        QRCode).make_image envReadOnly QRCodeGenerator.init.fill_color
        QRCodeGenerator.init.back_color
      = .ok ⟨some 4, ERROR_CORRECT_H, some 10, some 4, ["hello"],
          some "black", some "white"⟩) ∧
    ((⟨some 4, ERROR_CORRECT_H, some 10, some 4, ["hello"], some "black",
        some "white"⟩ : QRImage).save envReadOnly "out.png"
      = .error (.osError "out.png")) ∧
    ((generate envReadOnly QRCodeGenerator.init "hello" "out.png").ret
      = .error (.osError "out.png") ∧
     (generate envReadOnly QRCodeGenerator.init "hello" "out.png").saved
      = none) :=
  ⟨rfl, rfl, rfl,
   (C8_errors_propagate envReadOnly QRCodeGenerator.init "hello" "out.png"
       (.osError "out.png")).2.2
     ⟨some 4, ERROR_CORRECT_H, some 10, some 4, ["hello"]⟩
     ⟨some 4, ERROR_CORRECT_H, some 10, some 4, ["hello"], some "black",
       some "white"⟩ rfl rfl rfl⟩

/-- C9: with `output_file` omitted, `generate` runs on the fixed literal
default path `"qrcode5.png"`, and whatever file it writes is written at
that path, for every environment, configuration and payload. -/
theorem C9_default_output_path (env : Env) (self : QRCodeGenerator)
    (data : String) :
    generateDefault env self data = generate env self data "qrcode5.png" ∧
    ∀ entry, (generateDefault env self data).saved = some entry →
      entry.1 = "qrcode5.png" :=
  ⟨rfl, fun entry h =>
    generate_saved_path env self data "qrcode5.png" entry h⟩

/-- Witness for C9 at a concrete call that does write a file. -/
theorem C9_default_output_path_witness :
    (generateDefault env0 QRCodeGenerator.init "hello").saved
      = some ("qrcode5.png",
          ⟨some 4, ERROR_CORRECT_H, some 10, some 4, ["hello"],
            some "black", some "white"⟩) ∧
    ("qrcode5.png",
      (⟨some 4, ERROR_CORRECT_H, some 10, some 4, ["hello"], some "black",
        some "white"⟩ : QRImage)).1 = "qrcode5.png" :=
  ⟨rfl,
   (C9_default_output_path env0 QRCodeGenerator.init "hello").2
     ("qrcode5.png",
       ⟨some 4, ERROR_CORRECT_H, some 10, some 4, ["hello"], some "black",
         some "white"⟩) rfl⟩

/-- C10: an explicit `None` argument to `set_properties` is
indistinguishable from omitting the argument (both bind to the `None`
sentinel), and consequently the setter can never make a field hold `None`:
each result field is set exactly when the argument was set or the field
already was. -/
theorem C10_none_same_as_omitted (self : QRCodeGenerator)
    (size border : PyArg Int) (fill_color back_color : PyArg String)
    (box_size : PyArg Int) (s b : Option Int) (f k : Option String)
    (x : Option Int) :
    set_properties_call self (.given none) border fill_color back_color
        box_size
      = set_properties_call self .omitted border fill_color back_color
        box_size ∧
    set_properties_call self size (.given none) fill_color back_color
        box_size
      = set_properties_call self size .omitted fill_color back_color
        box_size ∧
    set_properties_call self size border (.given none) back_color box_size
      = set_properties_call self size border .omitted back_color
        box_size ∧
    set_properties_call self size border fill_color (.given none) box_size
      = set_properties_call self size border fill_color .omitted
        box_size ∧
    set_properties_call self size border fill_color back_color
        (.given none)
      = set_properties_call self size border fill_color back_color
        .omitted ∧
    (set_properties self s b f k x).size.isSome
      = (s.isSome || self.size.isSome) ∧
    (set_properties self s b f k x).border.isSome
      = (b.isSome || self.border.isSome) ∧
    (set_properties self s b f k x).fill_color.isSome
      = (f.isSome || self.fill_color.isSome) ∧
    (set_properties self s b f k x).back_color.isSome
      = (k.isSome || self.back_color.isSome) ∧
    (set_properties self s b f k x).box_size.isSome
      = (x.isSome || self.box_size.isSome) := by
  refine ⟨rfl, rfl, rfl, rfl, rfl, ?_, ?_, ?_, ?_, ?_⟩
  · cases s <;> rfl
  · cases b <;> rfl
  · cases f <;> rfl
  · cases k <;> rfl
  · cases x <;> rfl

/-- C1: the claim says `generate` returns the resolved absolute path of the
written file; in the code `os` is never imported (lines 1-2 import only
`qrcode` and `PIL.Image`), so line 39 raises `NameError` on every call that
gets there -- after the file has already been written.  The call below
writes `qrcode5.png` and then raises instead of returning a path. -/
theorem C1_missing_os_import :
    (generate env0 QRCodeGenerator.init "hello" "qrcode5.png").saved
      = some ("qrcode5.png",
          ⟨some 4, ERROR_CORRECT_H, some 10, some 4, ["hello"],
            some "black", some "white"⟩) ∧
    (generate env0 QRCodeGenerator.init "hello" "qrcode5.png").ret
      = .error (.nameError "os") :=
  ⟨rfl, rfl⟩

/-- C2 counterexample: a 40-byte payload exceeds the version-4 level-H
capacity (34 bytes) of the default configuration, yet `generate` does not
fail the encoding -- `make(fit=True)` auto-selects version 5 and the image
is encoded and written at that larger size. -/
theorem C2_counterexample :
    capH 4 < payload40.utf8ByteSize ∧
    QRCodeGenerator.init.size = some 4 ∧
    (((buildEncoder QRCodeGenerator.init).add_data payload40).make true
      = .ok ⟨some 5, ERROR_CORRECT_H, some 10, some 4, [payload40]⟩) ∧
    (generate env0 QRCodeGenerator.init payload40 "out.png").saved
      = some ("out.png",
          ⟨some 5, ERROR_CORRECT_H, some 10, some 4, [payload40],
            some "black", some "white"⟩) :=
  ⟨by decide, rfl, rfl, rfl⟩

/-- C2 (amended): a payload too long for the validly configured version `v`
is never truncated.  If the encoding step succeeds, it succeeds at the
smallest fitting version `w` with `v < w ≤ 40`, keeping the payload intact;
and it fails with `DataOverflowError` exactly when no version up to 40 can
hold the payload at level H. -/
theorem C2_autofit (self : QRCodeGenerator) (data : String) (v : Nat)
    (hv : self.size = some (v : Int)) (h1 : 1 ≤ v) (h40 : v ≤ 40)
    (hlong : capH v < data.utf8ByteSize) :
    (∀ qr2, ((buildEncoder self).add_data data).make true = .ok qr2 →
      qr2.data_list = [data] ∧
      ∃ w, v < w ∧ w ≤ 40 ∧ qr2.version = some (w : Int) ∧
        data.utf8ByteSize ≤ capH w ∧
        ∀ u, v ≤ u → u < w → capH u < data.utf8ByteSize) ∧
    (((buildEncoder self).add_data data).make true = .error .dataOverflow ↔
      ∀ w, v ≤ w → w ≤ 40 → capH w < data.utf8ByteSize) := by
  have hqr : (buildEncoder self).add_data data =
      ⟨some (v : Int), ERROR_CORRECT_H, self.box_size, self.border,
        [data]⟩ := by
    simp [buildEncoder, QRCode.add_data, hv]
  have hneed : (⟨some (v : Int), ERROR_CORRECT_H, self.box_size,
      self.border, [data]⟩ : QRCode).neededBytes = data.utf8ByteSize := by
    simp [QRCode.neededBytes]
  have hmake : ((buildEncoder self).add_data data).make true =
      match (List.range' v (41 - v)).find?
          (fun w => decide (data.utf8ByteSize ≤ capH w)) with
      | some w =>
          .ok (⟨some (w : Int), ERROR_CORRECT_H, self.box_size,
            self.border, [data]⟩ : QRCode)
      | none => .error .dataOverflow := by
    rw [hqr]
    simp only [QRCode.make, QRCode.best_fit, hneed, Bool.true_or,
      if_true, Option.getD_some, Int.toNat_ofNat]
  rw [hmake]
  cases hfind : (List.range' v (41 - v)).find?
      (fun w => decide (data.utf8ByteSize ≤ capH w)) with
  | some w =>
    obtain ⟨hsw, hlt, hpw, hmin⟩ := find?_range'_first (41 - v) v w hfind
    have hfit : data.utf8ByteSize ≤ capH w := of_decide_eq_true hpw
    have hw40 : w ≤ 40 := by omega
    have hvw : v < w := by
      rcases Nat.lt_or_ge v w with hc | hc
      · exact hc
      · exfalso
        have hwv : w = v := by omega
        rw [hwv] at hfit
        omega
    constructor
    · intro qr2 hok
      injection hok with h2
      rw [← h2]
      refine ⟨rfl, w, hvw, hw40, rfl, hfit, ?_⟩
      intro u hu1 hu2
      have hpu := hmin u hu1 hu2
      have := of_decide_eq_false hpu
      omega
    · constructor
      · intro hcon
        exact Except.noConfusion hcon
      · intro hall
        have := hall w (by omega) hw40
        omega
  | none =>
    have hnone := List.find?_eq_none.mp hfind
    constructor
    · intro qr2 hok
      exact Except.noConfusion hok
    · constructor
      · intro _ w hw1 hw2
        have hmem : w ∈ List.range' v (41 - v) := by
          rw [List.mem_range'_1]
          omega
        have hne : ¬ data.utf8ByteSize ≤ capH w := by
          simpa using hnone w hmem
        omega
      · intro _
        rfl

/-- Witness for C2 (amended): the default configuration (version 4) with a
40-byte payload. -/
theorem C2_autofit_witness :
    QRCodeGenerator.init.size = some ((4 : Nat) : Int) ∧
    1 ≤ 4 ∧ 4 ≤ 40 ∧ capH 4 < payload40.utf8ByteSize ∧
    ((∀ qr2, ((buildEncoder QRCodeGenerator.init).add_data payload40).make
          true = .ok qr2 →
        qr2.data_list = [payload40] ∧
        ∃ w : Nat, 4 < w ∧ w ≤ 40 ∧ qr2.version = some (w : Int) ∧
          payload40.utf8ByteSize ≤ capH w ∧
          ∀ u : Nat, 4 ≤ u → u < w → capH u < payload40.utf8ByteSize) ∧
      (((buildEncoder QRCodeGenerator.init).add_data payload40).make true
          = .error .dataOverflow ↔
        ∀ w : Nat, 4 ≤ w → w ≤ 40 → capH w < payload40.utf8ByteSize)) :=
  ⟨rfl, by decide, by decide, by decide,
   C2_autofit QRCodeGenerator.init payload40 4 rfl (by decide) (by decide)
     (by decide)⟩
